import Mathlib

/-!
Shallow embedding of the per-resource daemon supervisor of the kopf operator
framework (kopf/reactor/daemons.py): handler descriptors, the cooperative
stopper signal, the spawn and the two termination protocols, and the timer
scheduling arithmetic. Time is modelled as rational seconds; the asyncio task
of a daemon is abstracted by observations of task.done() at the code points
where the source queries it.
-/

namespace Kopf

/-- The fixed enumeration of stopping reasons of a daemon stopper
(kopf/structs/primitives.DaemonStoppingReason, per the spec). -/
inductive DaemonStoppingReason where
  | RESOURCE_DELETED
  | OPERATOR_EXITING
  | DAEMON_SIGNALLED
  | DAEMON_CANCELLED
  | DAEMON_ABANDONED
  | DONE
deriving DecidableEq, Repr

/-- Modelled from the spec: kopf/structs/primitives.DaemonStopper is absent from
the sources; per spec section 4.A it is a set of reasons plus the monotonic
timestamp of the first set. -/
structure DaemonStopper where
  reasons : List DaemonStoppingReason
  whenSet : Option ℚ
deriving DecidableEq, Repr

/-- Modelled from the spec: a freshly constructed stopper has no reason set and
no first-set timestamp. -/
def DaemonStopper.fresh : DaemonStopper :=
  { reasons := [], whenSet := none }

/-- Modelled from the spec: set(reason) is idempotent; if no reason is set yet
it records the current monotonic time as the first-set instant. -/
def DaemonStopper.set (s : DaemonStopper) (reason : DaemonStoppingReason) (now : ℚ) :
    DaemonStopper :=
  { reasons := if reason ∈ s.reasons then s.reasons else reason :: s.reasons,
    whenSet := match s.whenSet with
      | none => some now
      | some w => some w }

/-- Modelled from the spec: membership test for one reason. -/
def DaemonStopper.isSetReason (s : DaemonStopper) (reason : DaemonStoppingReason) : Bool :=
  decide (reason ∈ s.reasons)

/-- Modelled from the spec: is any reason set. -/
def DaemonStopper.isSetAny (s : DaemonStopper) : Bool :=
  !s.reasons.isEmpty

/-- Python truthiness coercion for an optional float: the expression
x or d evaluates to d when x is None or 0, and to x otherwise. -/
def pyOrRat (x : Option ℚ) (d : ℚ) : ℚ :=
  match x with
  | none => d
  | some v => if v = 0 then d else v

/-- Daemon handler descriptor (kopf/structs/handlers.ResourceDaemonHandler):
the subset of fields read by the daemons module. -/
structure ResourceDaemonHandler where
  id : String
  initial_delay : Option ℚ
  cancellation_backoff : Option ℚ
  cancellation_timeout : Option ℚ
  cancellation_polling : Option ℚ
deriving DecidableEq, Repr

/-- Timer handler descriptor (kopf/structs/handlers.ResourceTimerHandler):
the subset of fields read by the daemons module. -/
structure ResourceTimerHandler where
  id : String
  initial_delay : Option ℚ
  interval : Option ℚ
  idle : Option ℚ
  sharp : Bool
deriving DecidableEq, Repr

/-- The tagged variant of spawning handlers: the source dispatches on the
handler class at runtime (isinstance checks in daemons.py). -/
inductive ResourceSpawningHandler where
  | daemonHandler (h : ResourceDaemonHandler)
  | timerHandler (h : ResourceTimerHandler)
deriving DecidableEq, Repr

/-- The identifier of a spawning handler (handler.id in the source). -/
def ResourceSpawningHandler.id : ResourceSpawningHandler → String
  | .daemonHandler h => h.id
  | .timerHandler h => h.id

/-- A daemon record (kopf/structs/containers.Daemon): the stopper, the handler,
and the runner task abstracted by whether task.done() holds at the observation
point of the current supervisor call. The logger is modelled by the event
flags in the results of the supervisor operations. -/
structure Daemon where
  stopper : DaemonStopper
  handler : ResourceSpawningHandler
  taskDone : Bool
deriving DecidableEq, Repr

/-- The re-check cadence for daemons without explicit polling
(daemons.py DAEMON_POLLING_INTERVAL = 60). -/
def DAEMON_POLLING_INTERVAL : ℚ := 60

/-- The per-handler termination configuration extracted at the top of
stop_resource_daemons (daemons.py lines 140 to 149): backoff, timeout and
polling cadence; timers carry no backoff and no timeout. The polling default
uses Python or on the optional float. -/
def stopResourceConfig (h : ResourceSpawningHandler) : Option ℚ × Option ℚ × ℚ :=
  match h with
  | .daemonHandler hd =>
      (hd.cancellation_backoff, hd.cancellation_timeout,
        pyOrRat hd.cancellation_polling DAEMON_POLLING_INTERVAL)
  | .timerHandler _ => (none, none, DAEMON_POLLING_INTERVAL)

/-- The outcome of one per-record iteration of stop_resource_daemons: the
updated stopper, the delay contributed to the returned collection (none when
nothing is appended), and the observable side effects of this iteration. -/
structure StopPhaseResult where
  stopper : DaemonStopper
  delay : Option ℚ
  signalledLogged : Bool
  cancelledTask : Bool
  cancelledLogged : Bool
  abandonedWarned : Bool
  leakWarned : Bool
  pollingLogged : Bool
deriving DecidableEq, Repr

/-- One iteration of the loop body of stop_resource_daemons
(daemons.py lines 135 to 183) for a single daemon record: compute the age from
the first-set timestamp (Python or treats an unset or zero timestamp as now),
unconditionally set RESOURCE_DELETED, yield one scheduler tick (the taskDone
field of the record is the post-yield observation of task.done()), then select
the termination phase by the elif chain of the source. -/
def stop_resource_daemons_step (now : ℚ) (d : Daemon) : StopPhaseResult :=
  let cfg := stopResourceConfig d.handler
  let backoff := cfg.1
  let timeout := cfg.2.1
  let polling := cfg.2.2
  let age : ℚ := now - pyOrRat d.stopper.whenSet now
  let stopper := d.stopper.set .RESOURCE_DELETED now
  if d.taskDone then
    { stopper := stopper, delay := none, signalledLogged := false, cancelledTask := false,
      cancelledLogged := false, abandonedWarned := false, leakWarned := false,
      pollingLogged := false }
  else if backoff.any (fun b => decide (age < b)) then
    let fresh := !stopper.isSetReason .DAEMON_SIGNALLED
    { stopper := if fresh then stopper.set .DAEMON_SIGNALLED now else stopper,
      delay := some (backoff.getD 0 - age),
      signalledLogged := fresh, cancelledTask := false, cancelledLogged := false,
      abandonedWarned := false, leakWarned := false, pollingLogged := false }
  else if timeout.any (fun t => decide (age < t + pyOrRat backoff 0)) then
    let fresh := !stopper.isSetReason .DAEMON_CANCELLED
    { stopper := if fresh then stopper.set .DAEMON_CANCELLED now else stopper,
      delay := some (timeout.getD 0 + pyOrRat backoff 0 - age),
      signalledLogged := false, cancelledTask := fresh, cancelledLogged := fresh,
      abandonedWarned := false, leakWarned := false, pollingLogged := false }
  else if timeout.isSome then
    let fresh := !stopper.isSetReason .DAEMON_ABANDONED
    { stopper := if fresh then stopper.set .DAEMON_ABANDONED now else stopper,
      delay := none,
      signalledLogged := false, cancelledTask := false, cancelledLogged := false,
      abandonedWarned := fresh, leakWarned := fresh, pollingLogged := false }
  else
    { stopper := stopper, delay := some polling, signalledLogged := false,
      cancelledTask := false, cancelledLogged := false, abandonedWarned := false,
      leakWarned := false, pollingLogged := true }

/-- The whole of stop_resource_daemons over the daemon table: iterate the
records, collect the contributed delays in order (daemons.py lines 133 to 185).
Each record also carries back its updated state. -/
def stop_resource_daemons (now : ℚ) (daemons : List (String × Daemon)) :
    List (String × StopPhaseResult) × List ℚ :=
  let results := daemons.map (fun p => (p.1, stop_resource_daemons_step now p.2))
  (results, results.filterMap (fun p => p.2.delay))

/-- Membership of a daemon identifier in the daemon table. -/
def hasDaemonId (daemons : List (String × Daemon)) (i : String) : Bool :=
  daemons.any (fun p => decide (p.1 = i))

/-- A freshly spawned daemon record: a fresh stopper and a running task
(daemons.py lines 64 to 83). The daemon cause receives a fresh patch
accumulator; the patch and the logger are not observed by any claim and are
abstracted away from the record. -/
def freshDaemon (handler : ResourceSpawningHandler) : Daemon :=
  { stopper := DaemonStopper.fresh, handler := handler, taskDone := false }

/-- One iteration of the spawn loop (daemons.py lines 61 to 84): insert a new
record and start a runner task only when the identifier is absent from the
(already updated) table; the second component accumulates the identifiers of
the runner tasks created so far. -/
def spawn_step (acc : List (String × Daemon) × List String)
    (handler : ResourceSpawningHandler) : List (String × Daemon) × List String :=
  let daemon_id := handler.id
  if hasDaemonId acc.1 daemon_id then acc
  else (acc.1 ++ [(daemon_id, freshDaemon handler)], acc.2 ++ [daemon_id])

/-- The outcome of spawn_resource_daemons: the error surfaced to the caller (if
any), the daemon table after the call, the identifiers of the runner tasks
created by this call, and the returned delays. -/
structure SpawnOutcome where
  error : Option String
  daemons : List (String × Daemon)
  spawnedIds : List String
  delays : List ℚ
deriving DecidableEq, Repr

/-- spawn_resource_daemons (daemons.py lines 44 to 85): fail with the internal
invariant violation when the memory carries no live fresh body, otherwise
insert a record per absent handler identifier and return an empty delay
collection. The body is abstracted to a plain datum. -/
def spawn_resource_daemons (handlers : List ResourceSpawningHandler)
    (daemons : List (String × Daemon)) (live_fresh_body : Option Nat) : SpawnOutcome :=
  match live_fresh_body with
  | none =>
      { error := some "A daemon is spawned with None as body. This is a bug. Please report.",
        daemons := daemons, spawnedIds := [], delays := [] }
  | some _ =>
      let final := handlers.foldl spawn_step (daemons, [])
      { error := none, daemons := final.1, spawnedIds := final.2, delays := [] }

/-- The termination configuration extracted at the top of stop_daemon
(daemons.py lines 227 to 234): backoff and timeout; timers carry neither. -/
def stopDaemonConfig (h : ResourceSpawningHandler) : Option ℚ × Option ℚ :=
  match h with
  | .daemonHandler hd => (hd.cancellation_backoff, hd.cancellation_timeout)
  | .timerHandler _ => (none, none)

/-- The outcome of stop_daemon: the final stopper, whether the task was
cancelled, the wait budgets actually awaited (in order), and the emitted
log events. -/
structure StopDaemonOutcome where
  stopper : DaemonStopper
  cancelledTask : Bool
  waits : List ℚ
  gracefulExitLogged : Bool
  signalledLogged : Bool
  cancelledLogged : Bool
  abandonedWarned : Bool
  leakWarned : Bool
deriving DecidableEq, Repr

/-- stop_daemon (daemons.py lines 213 to 258), the linear in-memory termination
protocol used on operator exit. The task is abstracted by an oracle of
task.done() observations: doneAfterYield is the observation after the single
scheduler yield that follows setting OPERATOR_EXITING; doneAfterBackoffWait
and doneAfterTimeoutWait are the observations after the corresponding awaited
wait, consulted only when that wait actually happens (between two consecutive
queries with no await in between, task.done() cannot change on the
single-threaded event loop, which the dataflow below encodes). -/
def stop_daemon (d : Daemon)
    (doneAfterYield doneAfterBackoffWait doneAfterTimeoutWait : Bool)
    (now : ℚ) : StopDaemonOutcome :=
  let cfg := stopDaemonConfig d.handler
  let backoff := cfg.1
  let timeout := cfg.2
  let s0 := d.stopper.set .OPERATOR_EXITING now
  let done1 := doneAfterYield
  let gracefulPhase : DaemonStopper × List ℚ × Bool × Bool :=
    if !done1 && backoff.isSome then
      (s0.set .DAEMON_SIGNALLED now, [backoff.getD 0], true, doneAfterBackoffWait)
    else (s0, [], false, done1)
  let s1 := gracefulPhase.1
  let waitsB := gracefulPhase.2.1
  let signalledLogged := gracefulPhase.2.2.1
  let done2 := gracefulPhase.2.2.2
  let forcefulPhase : DaemonStopper × List ℚ × Bool × Bool :=
    if !done2 && timeout.isSome then
      (s1.set .DAEMON_CANCELLED now, [timeout.getD 0], true, doneAfterTimeoutWait)
    else (s1, [], false, done2)
  let s2 := forcefulPhase.1
  let waitsT := forcefulPhase.2.1
  let cancelledTask := forcefulPhase.2.2.1
  let done3 := forcefulPhase.2.2.2
  if !done3 then
    { stopper := s2.set .DAEMON_ABANDONED now, cancelledTask := cancelledTask,
      waits := waitsB ++ waitsT, gracefulExitLogged := done1,
      signalledLogged := signalledLogged, cancelledLogged := cancelledTask,
      abandonedWarned := true, leakWarned := true }
  else
    { stopper := s2, cancelledTask := cancelledTask, waits := waitsB ++ waitsT,
      gracefulExitLogged := done1, signalledLogged := signalledLogged,
      cancelledLogged := cancelledTask, abandonedWarned := false, leakWarned := false }

/-- The possible failures that propagate out of the guarded daemon or timer
body of a runner: a handler invocation error escaping the invocation engine, a
patch application failure, or cancellation of the task. -/
inductive RunnerFailure where
  | invocationError
  | patchFailure
  | cancelled
deriving DecidableEq, Repr

/-- The runner of a daemon task (daemons.py lines 261 to 287): dispatch on the
handler kind to the guarded body, and on every exit path (normal return, any
propagating error including a patch failure, or cancellation) set DONE on the
stopper in the finally block. The behaviour of the dispatched body is supplied
as its exit outcome, since it is driven by the external invocation engine. -/
def runner (handler : ResourceSpawningHandler)
    (bodyOutcome : Except RunnerFailure Unit)
    (s : DaemonStopper) (now : ℚ) : Except RunnerFailure Unit × DaemonStopper :=
  let result := match handler with
    | .daemonHandler _ => bodyOutcome
    | .timerHandler _ => bodyOutcome
  (result, s.set .DONE now)

/-- Python float modulo for a positive modulus: x % y = x - y * floor (x / y). -/
def pymod (x y : ℚ) : ℚ :=
  x - y * (⌊x / y⌋ : ℤ)

/-- The next-tick scheduling decision of the timer runner after one invocation
attempt (daemons.py lines 407 to 435): retry delays when the state is not done;
the sharp grid-aligned sleep when interval is set and sharp; the plain interval
sleep when interval is set; the idle wait loop when only idle is set; or the
one-shot break. -/
inductive TimerSleep where
  | retryDelays
  | sharpSleep (d : ℚ)
  | intervalSleep (d : ℚ)
  | idleWait
  | oneShotBreak
deriving DecidableEq, Repr

/-- The scheduling selector of the timer runner (daemons.py lines 407 to 435),
as a function of the invocation-state doneness, the handler configuration and
the clock readings. -/
def timerNextSleep (stateDone : Bool) (h : ResourceTimerHandler)
    (started now : ℚ) : TimerSleep :=
  if !stateDone then .retryDelays
  else match h.interval with
    | some i =>
        if h.sharp then .sharpSleep (i - pymod (now - started) i)
        else .intervalSleep i
    | none =>
        match h.idle with
        | some _ => .idleWait
        | none => .oneShotBreak

/-- The idle-only wait loop of the timer runner (daemons.py lines 428 to 430):
while idle_reset_time is not past the recorded start time, sleep the idle span
(the sleep returns early when the stopper is set, but the loop guard reads only
idle_reset_time). The environment supplies idle_reset_time and the stopper
state per iteration; the result tells whether the loop exited within the given
number of iterations. -/
def idleOnlyWaitLoop (idleResetTime : Nat → ℚ) (stopperSet : Nat → Bool)
    (started : ℚ) : Nat → Nat → Bool
  | 0, _ => false
  | fuel + 1, i =>
      if idleResetTime i ≤ started then
        idleOnlyWaitLoop idleResetTime stopperSet started fuel (i + 1)
      else true

/-! Helper lemmas about the stopper primitive. -/

theorem DaemonStopper.isSetReason_set_self (s : DaemonStopper)
    (r : DaemonStoppingReason) (now : ℚ) :
    (s.set r now).isSetReason r = true := by
  simp only [DaemonStopper.set, DaemonStopper.isSetReason]
  split <;> simp_all

theorem DaemonStopper.isSetReason_set_of_ne (s : DaemonStopper)
    (r a : DaemonStoppingReason) (now : ℚ) (h : a ≠ r) :
    (s.set r now).isSetReason a = s.isSetReason a := by
  simp only [DaemonStopper.set, DaemonStopper.isSetReason]
  split <;> simp_all

theorem DaemonStopper.whenSet_set_of_some (s : DaemonStopper)
    (r : DaemonStoppingReason) (now w : ℚ) (h : s.whenSet = some w) :
    (s.set r now).whenSet = some w := by
  simp [DaemonStopper.set, h]

theorem DaemonStopper.set_of_mem (s : DaemonStopper)
    (r : DaemonStoppingReason) (now w : ℚ)
    (hm : r ∈ s.reasons) (hw : s.whenSet = some w) :
    s.set r now = s := by
  cases s
  simp_all [DaemonStopper.set]

end Kopf

namespace Kopf

/-- C3: for every handler kind and every exit path of the runner task (normal
return, a propagating error such as a patch failure, or cancellation), the
runner sets the DONE reason on its stopper in its finally block before the
task completes, and the body outcome is surfaced unchanged; hence every daemon
task that has returned has DONE set on its stopper. -/
theorem C3_runner_always_sets_done (handler : ResourceSpawningHandler)
    (bodyOutcome : Except RunnerFailure Unit) (s : DaemonStopper) (now : ℚ) :
    (runner handler bodyOutcome s now).2.isSetReason .DONE = true ∧
    (runner handler bodyOutcome s now).1 = bodyOutcome := by
  refine ⟨?_, ?_⟩
  · simp only [runner]
    exact DaemonStopper.isSetReason_set_self s .DONE now
  · cases handler <;> simp [runner]

/-- C5: a spawn call on a memory whose live fresh body is unset fails with the
internal invariant violation error, surfaced to the caller, before creating any
stopper, runner task or daemon record: the daemon table is returned unchanged,
no task identifier is spawned, and no delay is produced. -/
theorem C5_spawn_without_body_fails (handlers : List ResourceSpawningHandler)
    (daemons : List (String × Daemon)) :
    (spawn_resource_daemons handlers daemons none).error.isSome = true ∧
    (spawn_resource_daemons handlers daemons none).daemons = daemons ∧
    (spawn_resource_daemons handlers daemons none).spawnedIds = [] ∧
    (spawn_resource_daemons handlers daemons none).delays = [] := by
  simp [spawn_resource_daemons]

/-- C9: contrary to the claim, the idle-only wait loop after a successful timer
firing checks only whether idle_reset_time moved past the recorded start time
and never consults the stopper; when idle_reset_time stays at the start time
(here both 10), the loop does not exit within any number of iterations, for
every history of stopper states, so the runner never returns. -/
theorem C9_idle_wait_ignores_stopper (fuel i : Nat) (stopperSet : Nat → Bool) :
    idleOnlyWaitLoop (fun _ => (10 : ℚ)) stopperSet 10 fuel i = false := by
  induction fuel generalizing i with
  | zero => simp [idleOnlyWaitLoop]
  | succ n ih => simpa [idleOnlyWaitLoop] using ih (i + 1)

/-- C7: during stop-for-deletion, a daemon record holding a timer handler with
an unfinished task never gains DAEMON_SIGNALLED, DAEMON_CANCELLED or
DAEMON_ABANDONED, its task is never cancelled, and every call contributes the
polling delay DAEMON_POLLING_INTERVAL of 60 seconds, regardless of the age
since the stopper was first set: only RESOURCE_DELETED is set. -/
theorem C7_timer_stop_for_deletion_polls (th : ResourceTimerHandler) (d : Daemon)
    (now : ℚ) (hh : d.handler = .timerHandler th) (htask : d.taskDone = false) :
    (stop_resource_daemons_step now d).stopper = d.stopper.set .RESOURCE_DELETED now ∧
    (stop_resource_daemons_step now d).cancelledTask = false ∧
    (stop_resource_daemons_step now d).stopper.isSetReason .DAEMON_SIGNALLED
      = d.stopper.isSetReason .DAEMON_SIGNALLED ∧
    (stop_resource_daemons_step now d).stopper.isSetReason .DAEMON_CANCELLED
      = d.stopper.isSetReason .DAEMON_CANCELLED ∧
    (stop_resource_daemons_step now d).stopper.isSetReason .DAEMON_ABANDONED
      = d.stopper.isSetReason .DAEMON_ABANDONED ∧
    (stop_resource_daemons_step now d).delay = some DAEMON_POLLING_INTERVAL ∧
    DAEMON_POLLING_INTERVAL = 60 ∧
    (stop_resource_daemons_step now d).pollingLogged = true := by
  have hstep : stop_resource_daemons_step now d =
      { stopper := d.stopper.set .RESOURCE_DELETED now,
        delay := some DAEMON_POLLING_INTERVAL, signalledLogged := false,
        cancelledTask := false, cancelledLogged := false, abandonedWarned := false,
        leakWarned := false, pollingLogged := true } := by
    simp [stop_resource_daemons_step, stopResourceConfig, hh, htask, Option.any]
  refine ⟨by simp [hstep], by simp [hstep], ?_, ?_, ?_, by simp [hstep], rfl,
    by simp [hstep]⟩
  all_goals
    simp only [hstep]
    apply DaemonStopper.isSetReason_set_of_ne
    simp

/-- C7 witness: a concrete timer daemon record with an unfinished task at a
concrete instant satisfies the hypotheses and the conclusion of C7. -/
theorem C7_timer_stop_for_deletion_polls_witness :
    let th : ResourceTimerHandler :=
      { id := "t", initial_delay := none, interval := some 5, idle := none, sharp := false }
    let d : Daemon :=
      { stopper := DaemonStopper.fresh, handler := .timerHandler th, taskDone := false }
    d.handler = .timerHandler th ∧ d.taskDone = false ∧
    ((stop_resource_daemons_step 3 d).stopper = d.stopper.set .RESOURCE_DELETED 3 ∧
     (stop_resource_daemons_step 3 d).cancelledTask = false ∧
     (stop_resource_daemons_step 3 d).stopper.isSetReason .DAEMON_SIGNALLED
       = d.stopper.isSetReason .DAEMON_SIGNALLED ∧
     (stop_resource_daemons_step 3 d).stopper.isSetReason .DAEMON_CANCELLED
       = d.stopper.isSetReason .DAEMON_CANCELLED ∧
     (stop_resource_daemons_step 3 d).stopper.isSetReason .DAEMON_ABANDONED
       = d.stopper.isSetReason .DAEMON_ABANDONED ∧
     (stop_resource_daemons_step 3 d).delay = some DAEMON_POLLING_INTERVAL ∧
     DAEMON_POLLING_INTERVAL = 60 ∧
     (stop_resource_daemons_step 3 d).pollingLogged = true) :=
  ⟨rfl, rfl, C7_timer_stop_for_deletion_polls _ _ 3 rfl rfl⟩

/-- C1: for a daemon record holding a daemon handler with positive configured
cancellation backoff and timeout and an unfinished task, stop-for-deletion
selects the termination phase purely from the age now minus the first-set
timestamp of the stopper: below backoff it sets DAEMON_SIGNALLED (logging on
first entry) and contributes backoff minus age; between backoff and backoff
plus timeout it sets DAEMON_CANCELLED, cancels the runner task on first entry,
and contributes backoff plus timeout minus age; past backoff plus timeout it
sets DAEMON_ABANDONED, emits the resource-leak warning on first entry, and
contributes no delay. -/
theorem C1_stop_for_deletion_escalation
    (hd : ResourceDaemonHandler) (d : Daemon) (b t now w : ℚ)
    (hh : d.handler = .daemonHandler hd)
    (hb : hd.cancellation_backoff = some b)
    (ht : hd.cancellation_timeout = some t)
    (hbpos : 0 < b) (htpos : 0 < t)
    (htask : d.taskDone = false)
    (hw : d.stopper.whenSet = some w) (hwpos : 0 < w) (hnow : w ≤ now) :
    (now - w < b →
      (stop_resource_daemons_step now d).stopper.isSetReason .DAEMON_SIGNALLED = true ∧
      (stop_resource_daemons_step now d).delay = some (b - (now - w)) ∧
      (stop_resource_daemons_step now d).cancelledTask = false ∧
      (d.stopper.isSetReason .DAEMON_SIGNALLED = false →
        (stop_resource_daemons_step now d).signalledLogged = true)) ∧
    (b ≤ now - w → now - w < b + t →
      (stop_resource_daemons_step now d).stopper.isSetReason .DAEMON_CANCELLED = true ∧
      (stop_resource_daemons_step now d).delay = some (b + t - (now - w)) ∧
      (d.stopper.isSetReason .DAEMON_CANCELLED = false →
        (stop_resource_daemons_step now d).cancelledTask = true)) ∧
    (b + t ≤ now - w →
      (stop_resource_daemons_step now d).stopper.isSetReason .DAEMON_ABANDONED = true ∧
      (stop_resource_daemons_step now d).delay = none ∧
      (stop_resource_daemons_step now d).cancelledTask = false ∧
      (d.stopper.isSetReason .DAEMON_ABANDONED = false →
        (stop_resource_daemons_step now d).abandonedWarned = true ∧
        (stop_resource_daemons_step now d).leakWarned = true)) := by
  have hwne : w ≠ 0 := ne_of_gt hwpos
  have hpy : pyOrRat d.stopper.whenSet now = w := by simp [pyOrRat, hw, hwne]
  have hpys : pyOrRat (some b) 0 = b := by simp [pyOrRat, ne_of_gt hbpos]
  have hsig : (d.stopper.set .RESOURCE_DELETED now).isSetReason .DAEMON_SIGNALLED
      = d.stopper.isSetReason .DAEMON_SIGNALLED :=
    DaemonStopper.isSetReason_set_of_ne _ _ _ _ (by simp)
  have hcan : (d.stopper.set .RESOURCE_DELETED now).isSetReason .DAEMON_CANCELLED
      = d.stopper.isSetReason .DAEMON_CANCELLED :=
    DaemonStopper.isSetReason_set_of_ne _ _ _ _ (by simp)
  have haban : (d.stopper.set .RESOURCE_DELETED now).isSetReason .DAEMON_ABANDONED
      = d.stopper.isSetReason .DAEMON_ABANDONED :=
    DaemonStopper.isSetReason_set_of_ne _ _ _ _ (by simp)
  refine ⟨?_, ?_, ?_⟩
  · intro hlt
    have hstep : stop_resource_daemons_step now d =
        { stopper :=
            if !(d.stopper.set .RESOURCE_DELETED now).isSetReason .DAEMON_SIGNALLED then
              (d.stopper.set .RESOURCE_DELETED now).set .DAEMON_SIGNALLED now
            else d.stopper.set .RESOURCE_DELETED now,
          delay := some (b - (now - w)),
          signalledLogged := !(d.stopper.set .RESOURCE_DELETED now).isSetReason
            .DAEMON_SIGNALLED,
          cancelledTask := false, cancelledLogged := false,
          abandonedWarned := false, leakWarned := false, pollingLogged := false } := by
      simp [stop_resource_daemons_step, stopResourceConfig, hh, hb, ht, htask, hpy,
        Option.any, hlt]
    rw [hstep]
    refine ⟨?_, rfl, rfl, ?_⟩
    · by_cases hset : d.stopper.isSetReason .DAEMON_SIGNALLED = true
      · simp [hsig, hset]
      · rw [Bool.not_eq_true] at hset
        simp [hsig, hset, DaemonStopper.isSetReason_set_self]
    · intro hc
      simp [hsig, hc]
  · intro hge hlt
    have hng : ¬(now - w < b) := not_lt.mpr hge
    have hlt2 : now - w < t + b := by linarith
    have harith : t + b - (now - w) = b + t - (now - w) := by ring
    have hstep : stop_resource_daemons_step now d =
        { stopper :=
            if !(d.stopper.set .RESOURCE_DELETED now).isSetReason .DAEMON_CANCELLED then
              (d.stopper.set .RESOURCE_DELETED now).set .DAEMON_CANCELLED now
            else d.stopper.set .RESOURCE_DELETED now,
          delay := some (b + t - (now - w)),
          signalledLogged := false,
          cancelledTask := !(d.stopper.set .RESOURCE_DELETED now).isSetReason
            .DAEMON_CANCELLED,
          cancelledLogged := !(d.stopper.set .RESOURCE_DELETED now).isSetReason
            .DAEMON_CANCELLED,
          abandonedWarned := false, leakWarned := false, pollingLogged := false } := by
      simp [stop_resource_daemons_step, stopResourceConfig, hh, hb, ht, htask, hpy,
        hpys, Option.any, hng, hlt2, harith]
    rw [hstep]
    refine ⟨?_, rfl, ?_⟩
    · by_cases hset : d.stopper.isSetReason .DAEMON_CANCELLED = true
      · simp [hcan, hset]
      · rw [Bool.not_eq_true] at hset
        simp [hcan, hset, DaemonStopper.isSetReason_set_self]
    · intro hc
      simp [hcan, hc]
  · intro hge
    have hng : ¬(now - w < b) := not_lt.mpr (by linarith)
    have hng2 : ¬(now - w < t + b) := not_lt.mpr (by linarith)
    have hstep : stop_resource_daemons_step now d =
        { stopper :=
            if !(d.stopper.set .RESOURCE_DELETED now).isSetReason .DAEMON_ABANDONED then
              (d.stopper.set .RESOURCE_DELETED now).set .DAEMON_ABANDONED now
            else d.stopper.set .RESOURCE_DELETED now,
          delay := none,
          signalledLogged := false, cancelledTask := false, cancelledLogged := false,
          abandonedWarned := !(d.stopper.set .RESOURCE_DELETED now).isSetReason
            .DAEMON_ABANDONED,
          leakWarned := !(d.stopper.set .RESOURCE_DELETED now).isSetReason
            .DAEMON_ABANDONED,
          pollingLogged := false } := by
      simp [stop_resource_daemons_step, stopResourceConfig, hh, hb, ht, htask, hpy,
        hpys, Option.any, hng, hng2]
    rw [hstep]
    refine ⟨?_, rfl, rfl, ?_⟩
    · by_cases hset : d.stopper.isSetReason .DAEMON_ABANDONED = true
      · simp [haban, hset]
      · rw [Bool.not_eq_true] at hset
        simp [haban, hset, DaemonStopper.isSetReason_set_self]
    · intro hc
      simp [haban, hc]

/-- C1 witness: a concrete daemon record with backoff 5 and timeout 10, first
set at time 1 and inspected at time 3 (age 2, inside the graceful window),
satisfies the hypotheses of C1 and its graceful-window conclusion. -/
theorem C1_stop_for_deletion_escalation_witness :
    let hd : ResourceDaemonHandler :=
      { id := "d", initial_delay := none, cancellation_backoff := some 5,
        cancellation_timeout := some 10, cancellation_polling := none }
    let d : Daemon :=
      { stopper := { reasons := [.RESOURCE_DELETED], whenSet := some 1 },
        handler := .daemonHandler hd, taskDone := false }
    d.handler = .daemonHandler hd ∧ hd.cancellation_backoff = some 5 ∧
    hd.cancellation_timeout = some 10 ∧ (0:ℚ) < 5 ∧ (0:ℚ) < 10 ∧
    d.taskDone = false ∧ d.stopper.whenSet = some 1 ∧ (0:ℚ) < 1 ∧ (1:ℚ) ≤ 3 ∧
    (3:ℚ) - 1 < 5 ∧
    ((stop_resource_daemons_step 3 d).stopper.isSetReason .DAEMON_SIGNALLED = true ∧
     (stop_resource_daemons_step 3 d).delay = some (5 - ((3:ℚ) - 1)) ∧
     (stop_resource_daemons_step 3 d).cancelledTask = false ∧
     (d.stopper.isSetReason .DAEMON_SIGNALLED = false →
       (stop_resource_daemons_step 3 d).signalledLogged = true)) := by
  intro hd d
  refine ⟨rfl, rfl, rfl, by norm_num, by norm_num, rfl, rfl, by norm_num,
    by norm_num, by norm_num, ?_⟩
  exact (C1_stop_for_deletion_escalation hd d 5 10 3 1 rfl rfl rfl (by norm_num)
    (by norm_num) rfl rfl (by norm_num) (by norm_num)).1 (by norm_num)

/-- C8: on a fresh daemon record with a configured backoff, two consecutive
stop-for-deletion calls that both fall inside the graceful window set
DAEMON_SIGNALLED and emit its debug log exactly once in total: the first call
sets and logs, the second call observes the reason already set, leaves the
stopper completely unchanged, logs nothing, and still contributes the
remaining backoff delay. -/
theorem C8_signalled_logged_once
    (hd : ResourceDaemonHandler) (b now1 now2 : ℚ)
    (hb : hd.cancellation_backoff = some b)
    (hbpos : 0 < b) (h1pos : 0 < now1) (h12 : now1 ≤ now2)
    (hwin : now2 - now1 < b) :
    (stop_resource_daemons_step now1
      ⟨DaemonStopper.fresh, .daemonHandler hd, false⟩).signalledLogged = true ∧
    (stop_resource_daemons_step now2
      ⟨(stop_resource_daemons_step now1
          ⟨DaemonStopper.fresh, .daemonHandler hd, false⟩).stopper,
        .daemonHandler hd, false⟩).signalledLogged = false ∧
    (stop_resource_daemons_step now1
      ⟨DaemonStopper.fresh, .daemonHandler hd, false⟩).stopper.isSetReason
        .DAEMON_SIGNALLED = true ∧
    (stop_resource_daemons_step now2
      ⟨(stop_resource_daemons_step now1
          ⟨DaemonStopper.fresh, .daemonHandler hd, false⟩).stopper,
        .daemonHandler hd, false⟩).stopper =
      (stop_resource_daemons_step now1
        ⟨DaemonStopper.fresh, .daemonHandler hd, false⟩).stopper ∧
    (stop_resource_daemons_step now1
      ⟨DaemonStopper.fresh, .daemonHandler hd, false⟩).delay = some b ∧
    (stop_resource_daemons_step now2
      ⟨(stop_resource_daemons_step now1
          ⟨DaemonStopper.fresh, .daemonHandler hd, false⟩).stopper,
        .daemonHandler hd, false⟩).delay = some (b - (now2 - now1)) := by
  have hr1 : stop_resource_daemons_step now1
      ⟨DaemonStopper.fresh, .daemonHandler hd, false⟩ =
      { stopper := { reasons := [.DAEMON_SIGNALLED, .RESOURCE_DELETED],
                     whenSet := some now1 },
        delay := some b, signalledLogged := true, cancelledTask := false,
        cancelledLogged := false, abandonedWarned := false, leakWarned := false,
        pollingLogged := false } := by
    simp [stop_resource_daemons_step, stopResourceConfig, hb, DaemonStopper.fresh,
      DaemonStopper.set, DaemonStopper.isSetReason, pyOrRat, Option.any, hbpos]
  have hr2 : stop_resource_daemons_step now2
      ⟨{ reasons := [.DAEMON_SIGNALLED, .RESOURCE_DELETED], whenSet := some now1 },
         .daemonHandler hd, false⟩ =
      { stopper := { reasons := [.DAEMON_SIGNALLED, .RESOURCE_DELETED],
                     whenSet := some now1 },
        delay := some (b - (now2 - now1)), signalledLogged := false,
        cancelledTask := false, cancelledLogged := false, abandonedWarned := false,
        leakWarned := false, pollingLogged := false } := by
    simp [stop_resource_daemons_step, stopResourceConfig, hb, DaemonStopper.set,
      DaemonStopper.isSetReason, pyOrRat, ne_of_gt h1pos, Option.any, hwin]
  rw [hr1, hr2]
  exact ⟨rfl, rfl, by simp [DaemonStopper.isSetReason], rfl, rfl, rfl⟩

/-- C8 witness: backoff 5, calls at times 1 and 3, both inside the graceful
window, satisfy the hypotheses and the conclusion of C8. -/
theorem C8_signalled_logged_once_witness :
    let hd : ResourceDaemonHandler :=
      { id := "d", initial_delay := none, cancellation_backoff := some 5,
        cancellation_timeout := some 10, cancellation_polling := none }
    hd.cancellation_backoff = some 5 ∧ (0:ℚ) < 5 ∧ (0:ℚ) < 1 ∧ (1:ℚ) ≤ 3 ∧
    (3:ℚ) - 1 < 5 ∧
    ((stop_resource_daemons_step 1
        ⟨DaemonStopper.fresh, .daemonHandler hd, false⟩).signalledLogged = true ∧
     (stop_resource_daemons_step 3
        ⟨(stop_resource_daemons_step 1
            ⟨DaemonStopper.fresh, .daemonHandler hd, false⟩).stopper,
          .daemonHandler hd, false⟩).signalledLogged = false) := by
  intro hd
  refine ⟨rfl, by norm_num, by norm_num, by norm_num, by norm_num, ?_⟩
  have h := C8_signalled_logged_once hd 5 1 3 rfl (by norm_num) (by norm_num)
    (by norm_num) (by norm_num)
  exact ⟨h.1, h.2.1⟩

/-- C2 counterexample: a daemon handler with backoff 0 and timeout 0 on a fresh
record whose task ignores the stopper: the first stop-for-deletion call does
not set DAEMON_CANCELLED and does not cancel the task, contrary to the claim;
it sets DAEMON_ABANDONED at once. -/
theorem C2_counterexample :
    (stop_resource_daemons_step 100
      ⟨DaemonStopper.fresh, .daemonHandler
        { id := "d", initial_delay := none, cancellation_backoff := some 0,
          cancellation_timeout := some 0, cancellation_polling := none },
        false⟩).cancelledTask = false ∧
    (stop_resource_daemons_step 100
      ⟨DaemonStopper.fresh, .daemonHandler
        { id := "d", initial_delay := none, cancellation_backoff := some 0,
          cancellation_timeout := some 0, cancellation_polling := none },
        false⟩).stopper.isSetReason .DAEMON_CANCELLED = false ∧
    (stop_resource_daemons_step 100
      ⟨DaemonStopper.fresh, .daemonHandler
        { id := "d", initial_delay := none, cancellation_backoff := some 0,
          cancellation_timeout := some 0, cancellation_polling := none },
        false⟩).stopper.isSetReason .DAEMON_ABANDONED = true := by
  refine ⟨?_, ?_, ?_⟩ <;>
    simp [stop_resource_daemons_step, stopResourceConfig, DaemonStopper.fresh,
      DaemonStopper.set, DaemonStopper.isSetReason, pyOrRat, Option.any]

/-- C2 amended: with backoff 0 and timeout 0 both the graceful and the forceful
windows are empty, so the first stop-for-deletion call immediately abandons the
daemon: it sets DAEMON_ABANDONED, warns and emits the resource-leak warning,
never sets DAEMON_CANCELLED and never cancels the task, and contributes no
delay; a second call observes DAEMON_ABANDONED already set, changes nothing,
re-emits nothing and contributes no delay. -/
theorem C2_zero_backoff_timeout_abandons
    (hd : ResourceDaemonHandler) (now1 now2 : ℚ)
    (hb : hd.cancellation_backoff = some 0) (ht : hd.cancellation_timeout = some 0)
    (h1pos : 0 < now1) (h12 : now1 ≤ now2) :
    (stop_resource_daemons_step now1
      ⟨DaemonStopper.fresh, .daemonHandler hd, false⟩) =
      { stopper := { reasons := [.DAEMON_ABANDONED, .RESOURCE_DELETED],
                     whenSet := some now1 },
        delay := none, signalledLogged := false, cancelledTask := false,
        cancelledLogged := false, abandonedWarned := true, leakWarned := true,
        pollingLogged := false } ∧
    (stop_resource_daemons_step now2
      ⟨{ reasons := [.DAEMON_ABANDONED, .RESOURCE_DELETED], whenSet := some now1 },
        .daemonHandler hd, false⟩) =
      { stopper := { reasons := [.DAEMON_ABANDONED, .RESOURCE_DELETED],
                     whenSet := some now1 },
        delay := none, signalledLogged := false, cancelledTask := false,
        cancelledLogged := false, abandonedWarned := false, leakWarned := false,
        pollingLogged := false } := by
  have hge : ¬(now2 - now1 < 0) := not_lt.mpr (sub_nonneg.mpr h12)
  constructor
  · simp [stop_resource_daemons_step, stopResourceConfig, hb, ht,
      DaemonStopper.fresh, DaemonStopper.set, DaemonStopper.isSetReason, pyOrRat,
      Option.any]
  · simp [stop_resource_daemons_step, stopResourceConfig, hb, ht,
      DaemonStopper.set, DaemonStopper.isSetReason, pyOrRat, ne_of_gt h1pos,
      Option.any, hge]

/-- C2 amended witness: the concrete zero-backoff zero-timeout handler with
calls at times 1 and 3 satisfies the hypotheses and the conclusion of the
amended C2. -/
theorem C2_zero_backoff_timeout_abandons_witness :
    let hd : ResourceDaemonHandler :=
      { id := "d", initial_delay := none, cancellation_backoff := some 0,
        cancellation_timeout := some 0, cancellation_polling := none }
    hd.cancellation_backoff = some 0 ∧ hd.cancellation_timeout = some 0 ∧
    (0:ℚ) < 1 ∧ (1:ℚ) ≤ 3 ∧
    ((stop_resource_daemons_step 1
        ⟨DaemonStopper.fresh, .daemonHandler hd, false⟩).stopper.isSetReason
          .DAEMON_ABANDONED = true ∧
     (stop_resource_daemons_step 3
        ⟨{ reasons := [.DAEMON_ABANDONED, .RESOURCE_DELETED], whenSet := some 1 },
          .daemonHandler hd, false⟩).abandonedWarned = false) := by
  intro hd
  refine ⟨rfl, rfl, by norm_num, by norm_num, ?_⟩
  have h := C2_zero_backoff_timeout_abandons hd 1 3 rfl rfl (by norm_num)
    (by norm_num)
  refine ⟨?_, ?_⟩
  · rw [h.1]
    simp [DaemonStopper.isSetReason]
  · rw [h.2]

/-! Helper lemmas about the spawn fold. -/

theorem hasDaemonId_append (tbl : List (String × Daemon)) (i : String) (dm : Daemon)
    (j : String) :
    hasDaemonId (tbl ++ [(i, dm)]) j = (hasDaemonId tbl j || decide (i = j)) := by
  simp [hasDaemonId]

theorem spawn_step_preserves (acc : List (String × Daemon) × List String)
    (h : ResourceSpawningHandler) (j : String)
    (hj : hasDaemonId acc.1 j = true) :
    hasDaemonId (spawn_step acc h).1 j = true := by
  simp only [spawn_step]
  split
  · exact hj
  · simp [hasDaemonId_append, hj]

theorem spawn_fold_preserves (hs : List ResourceSpawningHandler)
    (acc : List (String × Daemon) × List String) (j : String)
    (hj : hasDaemonId acc.1 j = true) :
    hasDaemonId (hs.foldl spawn_step acc).1 j = true := by
  induction hs generalizing acc with
  | nil => exact hj
  | cons h rest ih => exact ih _ (spawn_step_preserves acc h j hj)

theorem spawn_step_covers (acc : List (String × Daemon) × List String)
    (h : ResourceSpawningHandler) :
    hasDaemonId (spawn_step acc h).1 h.id = true := by
  simp only [spawn_step]
  by_cases hc : hasDaemonId acc.1 h.id = true
  · simp [hc]
  · rw [Bool.not_eq_true] at hc
    simp [hc, hasDaemonId_append]

theorem spawn_fold_covers (hs : List ResourceSpawningHandler)
    (acc : List (String × Daemon) × List String) :
    ∀ h ∈ hs, hasDaemonId (hs.foldl spawn_step acc).1 h.id = true := by
  induction hs generalizing acc with
  | nil => intro h hh; cases hh
  | cons hh rest ih =>
    intro h hmem
    rcases List.mem_cons.mp hmem with rfl | hmem
    · exact spawn_fold_preserves rest _ _ (spawn_step_covers acc h)
    · exact ih _ h hmem

theorem spawn_step_noop (acc : List (String × Daemon) × List String)
    (h : ResourceSpawningHandler) (hc : hasDaemonId acc.1 h.id = true) :
    spawn_step acc h = acc := by
  simp [spawn_step, hc]

theorem spawn_fold_noop (hs : List ResourceSpawningHandler)
    (tbl : List (String × Daemon)) (l : List String)
    (hall : ∀ h ∈ hs, hasDaemonId tbl h.id = true) :
    hs.foldl spawn_step (tbl, l) = (tbl, l) := by
  induction hs with
  | nil => rfl
  | cons h rest ih =>
    rw [List.foldl_cons, spawn_step_noop (tbl, l) h (hall h (by simp))]
    exact ih (fun h hm => hall h (List.mem_cons_of_mem _ hm))

theorem spawn_step_extends (acc : List (String × Daemon) × List String)
    (h : ResourceSpawningHandler) :
    ∃ a, (spawn_step acc h).1 = acc.1 ++ a := by
  simp only [spawn_step]
  split
  · exact ⟨[], by simp⟩
  · exact ⟨_, rfl⟩

theorem spawn_fold_extends (hs : List ResourceSpawningHandler)
    (acc : List (String × Daemon) × List String) :
    ∃ a, (hs.foldl spawn_step acc).1 = acc.1 ++ a := by
  induction hs generalizing acc with
  | nil => exact ⟨[], by simp⟩
  | cons h rest ih =>
    obtain ⟨a2, h2⟩ := ih (spawn_step acc h)
    obtain ⟨a1, h1⟩ := spawn_step_extends acc h
    exact ⟨a1 ++ a2, by rw [List.foldl_cons, h2, h1, List.append_assoc]⟩

/-- C4: spawn is idempotent on a memory with a non-null live fresh body: the
first call only appends new records (handlers whose identifier is already
present are untouched), a second call with the same handler sequence leaves
the daemon table exactly as after the first call and creates no runner task
and no daemon record, and each call returns an empty collection of delays. -/
theorem C4_spawn_idempotent (handlers : List ResourceSpawningHandler)
    (daemons : List (String × Daemon)) (body : Nat) :
    (spawn_resource_daemons handlers
      (spawn_resource_daemons handlers daemons (some body)).daemons
      (some body)).daemons =
      (spawn_resource_daemons handlers daemons (some body)).daemons ∧
    (spawn_resource_daemons handlers
      (spawn_resource_daemons handlers daemons (some body)).daemons
      (some body)).spawnedIds = [] ∧
    (∃ added, (spawn_resource_daemons handlers daemons (some body)).daemons
      = daemons ++ added) ∧
    (spawn_resource_daemons handlers daemons (some body)).delays = [] ∧
    (spawn_resource_daemons handlers
      (spawn_resource_daemons handlers daemons (some body)).daemons
      (some body)).delays = [] := by
  have hT : (spawn_resource_daemons handlers daemons (some body)).daemons =
      (handlers.foldl spawn_step (daemons, [])).1 := rfl
  have hall : ∀ h ∈ handlers,
      hasDaemonId (spawn_resource_daemons handlers daemons (some body)).daemons
        h.id = true := by
    rw [hT]
    exact spawn_fold_covers handlers (daemons, [])
  have hnoop := spawn_fold_noop handlers
    (spawn_resource_daemons handlers daemons (some body)).daemons [] hall
  refine ⟨?_, ?_, ?_, rfl, ?_⟩
  · show (handlers.foldl spawn_step
      ((spawn_resource_daemons handlers daemons (some body)).daemons, [])).1 = _
    rw [hnoop]
  · show (handlers.foldl spawn_step
      ((spawn_resource_daemons handlers daemons (some body)).daemons, [])).2 = _
    rw [hnoop]
  · rw [hT]
    exact spawn_fold_extends handlers (daemons, [])
  · rfl

/-! Helper lemmas for the Python modulo arithmetic of the sharp timer. -/

theorem pymod_eq_mul_fract (x y : ℚ) (hy : y ≠ 0) :
    pymod x y = y * Int.fract (x / y) := by
  rw [pymod, Int.fract]
  field_simp

theorem pymod_nonneg (x y : ℚ) (hy : 0 < y) : 0 ≤ pymod x y := by
  rw [pymod_eq_mul_fract x y (ne_of_gt hy)]
  exact mul_nonneg hy.le (Int.fract_nonneg _)

theorem pymod_lt (x y : ℚ) (hy : 0 < y) : pymod x y < y := by
  rw [pymod_eq_mul_fract x y (ne_of_gt hy)]
  calc y * Int.fract (x / y) < y * 1 :=
        (mul_lt_mul_left hy).mpr (Int.fract_lt_one _)
    _ = y := mul_one y

/-- C6: after a successful invocation, a sharp timer with a configured interval
sleeps exactly interval minus ((now minus started) mod interval); the sleep is
positive, at most one interval, and the wake-up instant lands on the grid of
points started plus a positive integer multiple of the interval, regardless of
how long the handler ran. -/
theorem C6_sharp_timer_grid (h : ResourceTimerHandler) (i started now : ℚ)
    (hi : h.interval = some i) (hsharp : h.sharp = true) (hipos : 0 < i)
    (hsn : started ≤ now) :
    timerNextSleep true h started now = .sharpSleep (i - pymod (now - started) i) ∧
    0 < i - pymod (now - started) i ∧
    i - pymod (now - started) i ≤ i ∧
    ∃ k : ℤ, 1 ≤ k ∧
      now + (i - pymod (now - started) i) = started + (k : ℚ) * i := by
  refine ⟨by simp [timerNextSleep, hi, hsharp], ?_, ?_, ?_⟩
  · have := pymod_lt (now - started) i hipos
    linarith
  · have := pymod_nonneg (now - started) i hipos
    linarith
  · refine ⟨⌊(now - started) / i⌋ + 1, ?_, ?_⟩
    · have h0 : (0:ℤ) ≤ ⌊(now - started) / i⌋ :=
        Int.floor_nonneg.mpr (div_nonneg (by linarith) hipos.le)
      omega
    · rw [pymod]
      push_cast
      ring

/-- C6 witness: a sharp timer with interval 5 whose handler started at time 0
and finished at time 2 sleeps exactly 3 seconds, so the next firing is at
time 5, on the grid of multiples of the interval. -/
theorem C6_sharp_timer_grid_witness :
    let th : ResourceTimerHandler :=
      { id := "t", initial_delay := none, interval := some 5, idle := none,
        sharp := true }
    th.interval = some 5 ∧ th.sharp = true ∧ (0:ℚ) < 5 ∧ (0:ℚ) ≤ 2 ∧
    (timerNextSleep true th 0 2 = .sharpSleep (5 - pymod ((2:ℚ) - 0) 5) ∧
     5 - pymod ((2:ℚ) - 0) 5 = 3 ∧
     ∃ k : ℤ, 1 ≤ k ∧
       (2:ℚ) + (5 - pymod ((2:ℚ) - 0) 5) = 0 + (k : ℚ) * 5) := by
  intro th
  have hfl : ⌊((2:ℚ) - 0) / 5⌋ = 0 := by
    rw [Int.floor_eq_zero_iff]
    constructor <;> norm_num
  have hpm : pymod ((2:ℚ) - 0) 5 = 2 := by
    rw [pymod, hfl]
    norm_num
  have h := C6_sharp_timer_grid th 5 0 2 rfl rfl (by norm_num) (by norm_num)
  exact ⟨rfl, rfl, by norm_num, by norm_num, h.1, by rw [hpm]; norm_num,
    h.2.2.2⟩

/-- C10: in stop-in-memory termination on operator exit, a daemon whose handler
carries no cancellation backoff and no cancellation timeout (always the case
for timer handlers) is never waited for and never cancelled: when its task is
not finished at the single scheduler yield after OPERATOR_EXITING is set, it
is immediately marked DAEMON_ABANDONED with a warning and a resource-leak
warning, with zero grace period. -/
theorem C10_stop_daemon_without_deadlines_abandons
    (d : Daemon) (th : ResourceTimerHandler) (dBW dTW : Bool) (now : ℚ)
    (hcfg : stopDaemonConfig d.handler = (none, none)) :
    stopDaemonConfig (.timerHandler th) = (none, none) ∧
    ((stop_daemon d false dBW dTW now).waits = [] ∧
     (stop_daemon d false dBW dTW now).cancelledTask = false ∧
     (stop_daemon d false dBW dTW now).signalledLogged = false ∧
     (stop_daemon d false dBW dTW now).stopper.isSetReason .OPERATOR_EXITING = true ∧
     (stop_daemon d false dBW dTW now).stopper.isSetReason .DAEMON_ABANDONED = true ∧
     (stop_daemon d false dBW dTW now).abandonedWarned = true ∧
     (stop_daemon d false dBW dTW now).leakWarned = true ∧
     (stop_daemon d false dBW dTW now).stopper =
       (d.stopper.set .OPERATOR_EXITING now).set .DAEMON_ABANDONED now) := by
  have hstep : stop_daemon d false dBW dTW now =
      { stopper := (d.stopper.set .OPERATOR_EXITING now).set .DAEMON_ABANDONED now,
        cancelledTask := false, waits := [], gracefulExitLogged := false,
        signalledLogged := false, cancelledLogged := false,
        abandonedWarned := true, leakWarned := true } := by
    simp [stop_daemon, hcfg]
  refine ⟨rfl, by simp [hstep], by simp [hstep], by simp [hstep], ?_, ?_,
    by simp [hstep], by simp [hstep], by simp [hstep]⟩
  · rw [hstep]
    show ((d.stopper.set .OPERATOR_EXITING now).set
      .DAEMON_ABANDONED now).isSetReason .OPERATOR_EXITING = true
    rw [DaemonStopper.isSetReason_set_of_ne _ _ _ _ (by simp)]
    exact DaemonStopper.isSetReason_set_self _ _ _
  · rw [hstep]
    exact DaemonStopper.isSetReason_set_self _ _ _

/-- C10 witness: a concrete timer daemon record whose task ignores the stopper
satisfies the hypothesis and the conclusion of C10 at time 7. -/
theorem C10_stop_daemon_without_deadlines_abandons_witness :
    let th : ResourceTimerHandler :=
      { id := "t", initial_delay := none, interval := some 5, idle := none,
        sharp := false }
    let d : Daemon :=
      { stopper := DaemonStopper.fresh, handler := .timerHandler th,
        taskDone := false }
    stopDaemonConfig d.handler = (none, none) ∧
    ((stop_daemon d false false false 7).waits = [] ∧
     (stop_daemon d false false false 7).cancelledTask = false ∧
     (stop_daemon d false false false 7).stopper.isSetReason
       .DAEMON_ABANDONED = true ∧
     (stop_daemon d false false false 7).abandonedWarned = true ∧
     (stop_daemon d false false false 7).leakWarned = true) := by
  intro th d
  have h := C10_stop_daemon_without_deadlines_abandons d th false false 7 rfl
  exact ⟨rfl, h.2.1, h.2.2.1, h.2.2.2.2.2.1, h.2.2.2.2.2.2.1, h.2.2.2.2.2.2.2.1⟩

end Kopf
